import Mathlib

/-!
Verification of the Prisma-Render scene editor / prompt synthesizer /
generation orchestrator against its natural-language specification.

The definitions below are a shallow embedding of the TypeScript source
(`src/App.tsx`, `src/types.ts`, the scene-editor component and the
gemini service module).  Percentage coordinates and pixel sizes are
modelled as rationals; JavaScript `undefined`-able fields become
`Option`; fallible operations return `Except`.
-/

namespace PrismaRender

/-- Element kinds, from `types.ts` (`ElementType`). -/
inductive ElementType where
  | person | animal | vehicle | plant | lighting | furniture
deriving DecidableEq, Repr

/-- Poses for person elements, from `types.ts` (`Pose`). -/
inductive Pose where
  | auto | standing | sitting | lying
deriving DecidableEq, Repr

/-- Install side of a linear light, from `types.ts` (`LightingPosition`). -/
inductive LightingPosition where
  | front | back
deriving DecidableEq, Repr

/-- Global mood setting, from `types.ts` (`Mood`). -/
inductive Mood where
  | original | day | dusk | night | summer | spring | rainy | sunny | starryNight
deriving DecidableEq, Repr

/-- The mood string as used by the app (the TypeScript `Mood` union values). -/
def Mood.text : Mood → String
  | .original => "Original"
  | .day => "Day"
  | .dusk => "Dusk"
  | .night => "Night"
  | .summer => "Summer"
  | .spring => "Spring"
  | .rainy => "Rainy"
  | .sunny => "Sunny"
  | .starryNight => "Starry Night"

/-- Generation mode, from `types.ts` (`GenerationMode`). -/
inductive GenerationMode where
  | image | video
deriving DecidableEq, Repr

/-- A point in percentage coordinates, `{x, y}` in the source. -/
structure Pt where
  x : ℚ
  y : ℚ
deriving DecidableEq, Repr

/-- A scene element, from `types.ts` (`SceneElement`).  Optional TypeScript
fields become `Option`; `subtype` is the user-editable free-text label. -/
structure SceneElement where
  id : String
  type : ElementType
  subtype : String
  x : ℚ
  y : ℚ
  endX : Option ℚ := none
  endY : Option ℚ := none
  points : Option (List Pt) := none
  referenceImage : Option String := none
  colorTemperature : Option ℕ := none
  pose : Option Pose := none
  lightingPosition : Option LightingPosition := none
deriving DecidableEq, Repr

/-- The `getPositionDescription` helper of `App.tsx` (lines 432-447):
3-by-3 bucketing of percentage coordinates into a positional label. -/
def getPositionDescription (x y : ℚ) : String :=
  let v : String := if y < 35 then "top" else if y > 65 then "bottom" else "middle"
  let h : String := if x < 35 then "left" else if x > 65 then "right" else "center"
  if v = "middle" ∧ h = "center" then "exact center"
  else if v = "middle" then h ++ " area"
  else if h = "center" then v ++ " area"
  else v ++ " " ++ h ++ " area"

/-- The nine positional labels the spec allows. -/
def positionLabels : List String :=
  ["exact center", "left area", "right area", "top area", "bottom area",
   "top left area", "top right area", "bottom left area", "bottom right area"]

/-- Position descriptor written from the specification words (claim C1):
vertical bucket `top` if y < 35, `bottom` if y > 65, else `middle`;
horizontal bucket `left` if x < 35, `right` if x > 65, else `center`;
collapsed combination. -/
def positionDescriptorSpec (x y : ℚ) : String :=
  let v : String := if y < 35 then "top" else if y > 65 then "bottom" else "middle"
  let h : String := if x < 35 then "left" else if x > 65 then "right" else "center"
  match v, h with
  | "middle", "center" => "exact center"
  | "middle", hh => hh ++ " area"
  | vv, "center" => vv ++ " area"
  | vv, hh => vv ++ " " ++ hh ++ " area"

/-- C1: for every x, y in [0,100], `getPositionDescription` is total and
returns exactly one of 9 fixed labels, computed by the 35/65 bucketing rule
(vertical `top`/`bottom`/`middle`, horizontal `left`/`right`/`center`,
collapsed combination); the boundary values 35 and 65 themselves fall in the
middle/center buckets. -/
theorem c1_positionDescriptor :
    (∀ x y : ℚ, 0 ≤ x → x ≤ 100 → 0 ≤ y → y ≤ 100 →
      getPositionDescription x y ∈ positionLabels ∧
      getPositionDescription x y = positionDescriptorSpec x y) ∧
    getPositionDescription 35 35 = "exact center" ∧
    getPositionDescription 65 65 = "exact center" := by
  refine ⟨?_, by decide, by decide⟩
  intro x y _ _ _ _
  unfold getPositionDescription positionDescriptorSpec positionLabels
  by_cases h1 : y < 35 <;> by_cases h2 : y > 65 <;>
    by_cases h3 : x < 35 <;> by_cases h4 : x > 65 <;>
    simp [h1, h2, h3, h4]

/-- Witness for C1 at the concrete interior point (20, 20). -/
theorem c1_positionDescriptor_witness :
    getPositionDescription 20 20 ∈ positionLabels ∧
    getPositionDescription 20 20 = positionDescriptorSpec 20 20 :=
  c1_positionDescriptor.1 20 20 (by norm_num) (by norm_num) (by norm_num) (by norm_num)

/-! History manager (`App.tsx` lines 230-254): two stacks of full
scene-element snapshots plus the current list. -/

/-- A full scene graph: the `sceneElements` array. -/
abbrev Graph := List SceneElement

/-- The undo/redo session state: `history` (past), `sceneElements` (current)
and `future`, as held in the three React state cells of `App.tsx`. -/
structure HistoryState where
  past : List Graph
  current : Graph
  future : List Graph
deriving DecidableEq, Repr

/-- The callback `saveHistory` (`App.tsx` 231-234): push current onto past,
clear future. -/
def saveHistory (s : HistoryState) : HistoryState :=
  { s with past := s.past ++ [s.current], future := [] }

/-- The callback `undo` (`App.tsx` 236-244): no-op when past is empty, else
pop the last past entry into current and push the prior current onto the
front of future. -/
def undo (s : HistoryState) : HistoryState :=
  match s.past.getLast? with
  | none => s
  | some previous =>
      { past := s.past.dropLast, current := previous, future := s.current :: s.future }

/-- The callback `redo` (`App.tsx` 246-254): no-op when future is empty, else
pop the front of future into current and push the prior current onto past. -/
def redo (s : HistoryState) : HistoryState :=
  match s.future with
  | [] => s
  | next :: rest =>
      { past := s.past ++ [s.current], current := next, future := rest }

/-- A structural mutation as performed by the app: `saveHistory()` followed by
replacing the current element list (add/remove/draw all follow this shape). -/
def structuralMutation (s : HistoryState) (g : Graph) : HistoryState :=
  { saveHistory s with current := g }

/-- A concrete element used in counterexamples and witnesses. -/
def demoElement : SceneElement :=
  { id := "e1", type := .lighting, subtype := "lamp", x := 20, y := 20,
    colorTemperature := some 3000, lightingPosition := some .front }

/-- C2 counterexample: in the (reachable) state with empty past and non-empty
future — produced here by one structural mutation followed by one `undo` —
`undo()` is a no-op but `redo()` still pops the future, so `undo(); redo()`
does not restore the pre-undo element list. -/
theorem c2_undoRedo_counterexample :
    (redo (undo (undo (structuralMutation ⟨[], [], []⟩ [demoElement])))).current ≠
      (undo (structuralMutation ⟨[], [], []⟩ [demoElement])).current := by
  decide

/-- C2 (amended): whenever the past stack is non-empty or the future stack is
empty — in particular after any sequence of structural mutations, which clear
the future — `undo()` followed by `redo()` restores the exact pre-undo current
element list; `undo()` is a no-op when past is empty; `redo()` is a no-op when
future is empty; and any snapshot clears the future stack, so `redo()` right
after a structural mutation is a no-op. -/
theorem c2_undoRedo_amended :
    (∀ s : HistoryState, s.past ≠ [] ∨ s.future = [] →
      (redo (undo s)).current = s.current) ∧
    (∀ s : HistoryState, s.past = [] → undo s = s) ∧
    (∀ s : HistoryState, s.future = [] → redo s = s) ∧
    (∀ s : HistoryState, ∀ g : Graph,
      (structuralMutation s g).future = [] ∧
      redo (structuralMutation s g) = structuralMutation s g) := by
  refine ⟨?_, ?_, ?_, ?_⟩
  · intro s h
    rcases hp : s.past.getLast? with _ | prev
    · rcases h with h | h
      · exact absurd (List.getLast?_eq_none_iff.mp hp) h
      · simp [undo, redo, hp, h]
    · simp [undo, redo, hp]
  · intro s h
    simp [undo, h]
  · intro s h
    simp [redo, h]
  · intro s g
    exact ⟨rfl, rfl⟩

/-- Witness for C2 (amended) at a concrete state with one past snapshot. -/
theorem c2_undoRedo_witness :
    (redo (undo (⟨[[]], [demoElement], []⟩ : HistoryState))).current = [demoElement] :=
  c2_undoRedo_amended.1 ⟨[[]], [demoElement], []⟩ (Or.inl (by decide))

/-! Coordinate clamping (`SceneEditor.getRelativeCoords`, and the mutation
handlers of `App.tsx`). -/

/-- The content box returned by `getBoundingClientRect()` in the editor. -/
structure DomRect where
  left : ℚ
  top : ℚ
  width : ℚ
  height : ℚ
deriving DecidableEq, Repr

/-- The helper `getRelativeCoords` of the scene editor (part_000 lines 151-164): clamp
the pointer position to the content box, then convert to percentages. -/
def getRelativeCoords (rect : DomRect) (clientX clientY : ℚ) : Pt :=
  let x := min (max 0 (clientX - rect.left)) rect.width
  let y := min (max 0 (clientY - rect.top)) rect.height
  ⟨x / rect.width * 100, y / rect.height * 100⟩

/-- A percentage coordinate inside the image bounds. -/
def inRange (q : ℚ) : Prop := 0 ≤ q ∧ q ≤ 100

instance instDecidableInRange (q : ℚ) : Decidable (inRange q) :=
  inferInstanceAs (Decidable (0 ≤ q ∧ q ≤ 100))

/-- Bounds for an optional coordinate. -/
def optInRange (o : Option ℚ) : Prop := o.elim True inRange

instance instDecidableOptInRange (o : Option ℚ) : Decidable (optInRange o) :=
  match o with
  | none => .isTrue trivial
  | some v => inferInstanceAs (Decidable (inRange v))

/-- Bounds for an optional freehand path. -/
def ptsInRange (o : Option (List Pt)) : Prop :=
  o.elim True fun ps => ∀ p ∈ ps, inRange p.x ∧ inRange p.y

instance instDecidablePtsInRange (o : Option (List Pt)) : Decidable (ptsInRange o) :=
  match o with
  | none => .isTrue trivial
  | some ps => inferInstanceAs (Decidable (∀ p ∈ ps, inRange p.x ∧ inRange p.y))

/-- Every stored coordinate of the element lies in [0,100]. -/
def inBounds (el : SceneElement) : Prop :=
  inRange el.x ∧ inRange el.y ∧ optInRange el.endX ∧ optInRange el.endY ∧
    ptsInRange el.points

instance instDecidableInBounds (el : SceneElement) : Decidable (inBounds el) :=
  inferInstanceAs (Decidable (inRange el.x ∧ inRange el.y ∧ optInRange el.endX ∧
    optInRange el.endY ∧ ptsInRange el.points))

/-- The handler `handleUpdateElementPosition` (`App.tsx` 416-430): update the dragged
handle of the matching element; elements with a `points` path are immutable. -/
def handleUpdateElementPosition (els : List SceneElement) (id : String)
    (x y : ℚ) (isEndPoint : Bool) : List SceneElement :=
  els.map fun el =>
    if el.id = id then
      if el.points.isSome then el
      else if isEndPoint then { el with endX := some x, endY := some y }
      else { el with x := x, y := y }
    else el

/-- One pointer-drag step: the editor converts the pointer position with
`getRelativeCoords` and feeds it to `handleUpdateElementPosition`
(part_000 lines 348-351). -/
def dragElement (rect : DomRect) (els : List SceneElement) (id : String)
    (clientX clientY : ℚ) (isEndPoint : Bool) : List SceneElement :=
  let coords := getRelativeCoords rect clientX clientY
  handleUpdateElementPosition els id coords.x coords.y isEndPoint

/-- The +2 duplicate offset of `handleDuplicateElement` (`App.tsx` 307-332),
clamping every coordinate to at most 100. -/
def duplicateOffset (el : SceneElement) (newId : String) : SceneElement :=
  { el with
    id := newId,
    x := min (el.x + 2) 100,
    y := min (el.y + 2) 100,
    endX := el.endX.map fun v => min (v + 2) 100,
    endY := el.endY.map fun v => min (v + 2) 100,
    points := el.points.map fun ps =>
      ps.map fun p => ⟨min (p.x + 2) 100, min (p.y + 2) 100⟩ }

/-- The handler `handleDuplicateElement` (`App.tsx` 307-332): append the offset copy of
the matching element (no-op when the id is absent). -/
def handleDuplicateElement (els : List SceneElement) (id newId : String) :
    List SceneElement :=
  match els.find? fun e => e.id = id with
  | none => els
  | some el => els ++ [duplicateOffset el newId]

/-- The handler `handleDrawComplete` (`App.tsx` 334-356): commit a drawn linear element
with the given start, end and optional freehand points. -/
def handleDrawComplete (toolType : ElementType) (toolSubtype : String)
    (newId : String) (start endp : Pt) (points : Option (List Pt)) : SceneElement :=
  { id := newId, type := toolType, subtype := toolSubtype,
    x := start.x, y := start.y,
    endX := some endp.x, endY := some endp.y,
    points := points,
    colorTemperature := if toolType = .lighting then some 3000 else none,
    pose := if toolType = .person then some Pose.auto else none,
    lightingPosition := some .front }

/-- The handler `handleAddElement` (`App.tsx` 285-305), non-linear branch: create a point
element at the given position (default (50,50) in the source). -/
def handleAddElement (toolType : ElementType) (toolSubtype : String)
    (newId : String) (pos : Pt) : SceneElement :=
  { id := newId, type := toolType, subtype := toolSubtype,
    x := pos.x, y := pos.y,
    colorTemperature := if toolType = .lighting then some 3000 else none,
    pose := if toolType = .person then some Pose.auto else none,
    lightingPosition := some .front }

lemma inRange_getRelativeCoords (rect : DomRect) (clientX clientY : ℚ)
    (hw : 0 < rect.width) (hh : 0 < rect.height) :
    inRange (getRelativeCoords rect clientX clientY).x ∧
    inRange (getRelativeCoords rect clientX clientY).y := by
  unfold getRelativeCoords inRange
  refine ⟨⟨?_, ?_⟩, ⟨?_, ?_⟩⟩
  · have h0 : (0:ℚ) ≤ min (max 0 (clientX - rect.left)) rect.width :=
      le_min (le_max_left 0 _) hw.le
    positivity
  · have hle : min (max 0 (clientX - rect.left)) rect.width ≤ rect.width :=
      min_le_right _ _
    have h1 : min (max 0 (clientX - rect.left)) rect.width / rect.width ≤ 1 :=
      (div_le_one hw).mpr hle
    nlinarith
  · have h0 : (0:ℚ) ≤ min (max 0 (clientY - rect.top)) rect.height :=
      le_min (le_max_left 0 _) hh.le
    positivity
  · have hle : min (max 0 (clientY - rect.top)) rect.height ≤ rect.height :=
      min_le_right _ _
    have h1 : min (max 0 (clientY - rect.top)) rect.height / rect.height ≤ 1 :=
      (div_le_one hh).mpr hle
    nlinarith

lemma inRange_clampAdd2 {q : ℚ} (h : 0 ≤ q) : inRange (min (q + 2) 100) :=
  ⟨le_min (by linarith) (by norm_num), min_le_right _ _⟩

lemma inBounds_duplicateOffset {el : SceneElement} (newId : String)
    (h : inBounds el) : inBounds (duplicateOffset el newId) := by
  obtain ⟨hx, hy, hex, hey, hps⟩ := h
  refine ⟨inRange_clampAdd2 hx.1, inRange_clampAdd2 hy.1, ?_, ?_, ?_⟩
  · cases hv : el.endX with
    | none => simp [duplicateOffset, optInRange, hv]
    | some v =>
        have := hex
        rw [hv] at this
        simpa [duplicateOffset, optInRange, hv] using inRange_clampAdd2 this.1
  · cases hv : el.endY with
    | none => simp [duplicateOffset, optInRange, hv]
    | some v =>
        have := hey
        rw [hv] at this
        simpa [duplicateOffset, optInRange, hv] using inRange_clampAdd2 this.1
  · cases hv : el.points with
    | none => simp [duplicateOffset, ptsInRange, hv]
    | some ps =>
        have hall := hps
        rw [hv] at hall
        simp only [duplicateOffset, hv]
        intro p hp
        obtain ⟨q, hq, rfl⟩ := List.mem_map.mp hp
        obtain ⟨hqx, hqy⟩ := hall q hq
        exact ⟨inRange_clampAdd2 hqx.1, inRange_clampAdd2 hqy.1⟩

/-- C3: after any coordinate-mutating operation — a drag step through
`getRelativeCoords` (with a positive content box), a duplicate with its +2
offset, or a completed draw whose inputs came from `getRelativeCoords` —
every stored coordinate stays in [0,100]. -/
theorem c3_clamping :
    (∀ (rect : DomRect) (clientX clientY : ℚ), 0 < rect.width → 0 < rect.height →
      inRange (getRelativeCoords rect clientX clientY).x ∧
      inRange (getRelativeCoords rect clientX clientY).y) ∧
    (∀ (rect : DomRect) (els : List SceneElement) (id : String)
      (clientX clientY : ℚ) (isEndPoint : Bool),
      0 < rect.width → 0 < rect.height → (∀ el ∈ els, inBounds el) →
      ∀ el ∈ dragElement rect els id clientX clientY isEndPoint, inBounds el) ∧
    (∀ (els : List SceneElement) (id newId : String), (∀ el ∈ els, inBounds el) →
      ∀ el ∈ handleDuplicateElement els id newId, inBounds el) ∧
    (∀ (toolType : ElementType) (toolSubtype newId : String) (start endp : Pt)
      (points : Option (List Pt)),
      inRange start.x → inRange start.y → inRange endp.x → inRange endp.y →
      ptsInRange points →
      inBounds (handleDrawComplete toolType toolSubtype newId start endp points)) := by
  refine ⟨inRange_getRelativeCoords, ?_, ?_, ?_⟩
  · intro rect els id clientX clientY isEndPoint hw hh hall el hel
    obtain ⟨hx, hy⟩ := inRange_getRelativeCoords rect clientX clientY hw hh
    simp only [dragElement, handleUpdateElementPosition, List.mem_map] at hel
    obtain ⟨a, ha, rfl⟩ := hel
    obtain ⟨hax, hay, haex, haey, haps⟩ := hall a ha
    by_cases h1 : a.id = id
    · rw [if_pos h1]
      by_cases h2 : a.points.isSome
      · rw [if_pos h2]
        exact ⟨hax, hay, haex, haey, haps⟩
      · rw [if_neg h2]
        cases isEndPoint with
        | false =>
            rw [if_neg Bool.false_ne_true]
            exact ⟨hx, hy, haex, haey, haps⟩
        | true =>
            rw [if_pos rfl]
            exact ⟨hax, hay, hx, hy, haps⟩
    · rw [if_neg h1]
      exact ⟨hax, hay, haex, haey, haps⟩
  · intro els id newId hall el hel
    unfold handleDuplicateElement at hel
    cases hfind : els.find? fun e => e.id = id with
    | none => rw [hfind] at hel; exact hall el hel
    | some found =>
        rw [hfind] at hel
        rcases List.mem_append.mp hel with h | h
        · exact hall el h
        · have hf : found ∈ els := List.mem_of_find?_eq_some hfind
          rcases List.mem_singleton.mp h with rfl
          exact inBounds_duplicateOffset newId (hall found hf)
  · intro toolType toolSubtype newId start endp points hsx hsy hex hey hps
    exact ⟨hsx, hsy, hex, hey, hps⟩

/-- Witness for C3: a concrete drag of `demoElement` far outside the box is
stored clamped, in bounds. -/
theorem c3_clamping_witness :
    ∀ el ∈ dragElement ⟨0, 0, 200, 100⟩ [demoElement] "e1" 1000 (-50) false,
      inBounds el :=
  c3_clamping.2.1 ⟨0, 0, 200, 100⟩ [demoElement] "e1" 1000 (-50) false
    (by norm_num) (by norm_num) (by decide)

/-! Shape of created elements (claim C4). -/

/-- The freehand branch of `handlePointerUp` (part_000 lines 363-368): a
recorded path of more than one point is committed through `onDrawComplete`
with start = first point, end = last point, and the path itself; shorter
paths are discarded. -/
def commitFreehandDraw (toolType : ElementType) (toolSubtype newId : String)
    (tempPath : List Pt) : Option SceneElement :=
  if tempPath.length > 1 then
    some (handleDrawComplete toolType toolSubtype newId (tempPath.headD ⟨0, 0⟩)
      (tempPath.getLastD ⟨0, 0⟩) (some tempPath))
  else none

/-- C4 counterexample: a committed freehand draw produces an element whose
end anchor (endX/endY) and path (points) are BOTH set — `handleDrawComplete`
stores `endX`/`endY` unconditionally, also when `points` is passed — so the
claimed mutual exclusion fails. -/
theorem c4_shape_counterexample :
    (handleDrawComplete .lighting "LED Strip" "e2" ⟨10, 10⟩ ⟨30, 30⟩
        (some [⟨10, 10⟩, ⟨30, 30⟩])).endX.isSome = true ∧
    (handleDrawComplete .lighting "LED Strip" "e2" ⟨10, 10⟩ ⟨30, 30⟩
        (some [⟨10, 10⟩, ⟨30, 30⟩])).points.isSome = true := by
  decide

/-- C4 (amended): for every element produced by a creation operation, point
elements have neither end anchor nor path; straight-line draws have an end
anchor and no path; freehand draws have a path of length at least 2 AND an
end anchor — the end anchor and the path are not mutually exclusive. -/
theorem c4_shape_amended :
    (∀ (toolType : ElementType) (toolSubtype newId : String) (pos : Pt),
      (handleAddElement toolType toolSubtype newId pos).endX = none ∧
      (handleAddElement toolType toolSubtype newId pos).endY = none ∧
      (handleAddElement toolType toolSubtype newId pos).points = none) ∧
    (∀ (toolType : ElementType) (toolSubtype newId : String) (start endp : Pt),
      (handleDrawComplete toolType toolSubtype newId start endp none).endX = some endp.x ∧
      (handleDrawComplete toolType toolSubtype newId start endp none).endY = some endp.y ∧
      (handleDrawComplete toolType toolSubtype newId start endp none).points = none) ∧
    (∀ (toolType : ElementType) (toolSubtype newId : String) (tempPath : List Pt)
      (el : SceneElement),
      commitFreehandDraw toolType toolSubtype newId tempPath = some el →
      el.points = some tempPath ∧ 2 ≤ tempPath.length ∧
      el.endX.isSome = true ∧ el.endY.isSome = true) := by
  refine ⟨fun _ _ _ _ => ⟨rfl, rfl, rfl⟩, fun _ _ _ _ _ => ⟨rfl, rfl, rfl⟩, ?_⟩
  intro toolType toolSubtype newId tempPath el h
  unfold commitFreehandDraw at h
  by_cases hl : tempPath.length > 1
  · rw [if_pos hl] at h
    obtain rfl := Option.some.inj h.symm
    exact ⟨rfl, by omega, rfl, rfl⟩
  · rw [if_neg hl] at h
    exact absurd h (by simp)

/-- Witness for C4 (amended) on a concrete two-point freehand draw. -/
theorem c4_shape_witness :
    ∃ el : SceneElement,
      commitFreehandDraw ElementType.lighting "LED Strip" "e9" [⟨1, 1⟩, ⟨2, 2⟩] = some el ∧
      (el.points = some [⟨1, 1⟩, ⟨2, 2⟩] ∧ 2 ≤ ([⟨1, 1⟩, ⟨2, 2⟩] : List Pt).length ∧
        el.endX.isSome = true ∧ el.endY.isSome = true) :=
  ⟨_, rfl, c4_shape_amended.2.2 ElementType.lighting "LED Strip" "e9" [⟨1, 1⟩, ⟨2, 2⟩] _ rfl⟩

/-! Prompt synthesizer (`constructFullPrompt`, `App.tsx` lines 453-535) and
the reference-image pipeline of `handleGenerate`. -/

/-- Substring search on character lists: the needle occurs somewhere in the
haystack. -/
def containsSub : List Char → List Char → Bool
  | [], needle => needle.isEmpty
  | h :: t, needle => needle.isPrefixOf (h :: t) || containsSub t needle

/-- JavaScript `String.prototype.includes`. -/
def jsIncludes (s sub : String) : Bool := containsSub s.data sub.data

/-- JavaScript `String.prototype.split` on a single separator character. -/
def splitOnCharAux (sep : Char) : List Char → List Char → List (List Char)
  | [], acc => [acc.reverse]
  | c :: t, acc =>
      if c = sep then acc.reverse :: splitOnCharAux sep t []
      else splitOnCharAux sep t (c :: acc)

/-- The chunks of `s.split(sep)`. -/
def jsSplitChar (s : String) (sep : Char) : List String :=
  (splitOnCharAux sep s.data []).map String.mk

/-- JavaScript `String.prototype.trim`: strip whitespace on both ends. -/
def jsTrim (s : String) : String :=
  ⟨((s.data.dropWhile Char.isWhitespace).reverse.dropWhile Char.isWhitespace).reverse⟩

/-- JavaScript `String.prototype.toLowerCase` (ASCII, as used on the labels). -/
def jsToLower (s : String) : String := ⟨s.data.map Char.toLower⟩

/-- The helper `extractBase64Data` (`App.tsx` 449-451): split the data URL on commas and
take chunk 1, falling back to the whole string when that chunk is missing or
empty (JS falsiness, matching the source fallback `|| dataUrl`). -/
def extractBase64Data (dataUrl : String) : String :=
  match (jsSplitChar dataUrl ',').get? 1 with
  | some p => if p = "" then dataUrl else p
  | none => dataUrl

/-- Install-type phrase for freehand (curved) elements (`App.tsx` 495). -/
def installTypeCurved (el : SceneElement) : String :=
  if el.lightingPosition = some .back then
    "backlighting/cove lighting hidden behind the structure"
  else "direct surface installation"

/-- Install-type phrase for straight linear elements (`App.tsx` 498). -/
def installTypeLinear (el : SceneElement) : String :=
  if el.lightingPosition = some .back then "backlighting/cove lighting"
  else "direct surface installation"

/-- Pose word for person elements (`App.tsx` 501-506); empty unless the
element is a person with an explicit non-auto pose. -/
def poseWord (el : SceneElement) : String :=
  if el.type = .person then
    match el.pose with
    | some .standing => "standing "
    | some .sitting => "sitting "
    | some .lying => "lying down "
    | _ => ""
  else ""

/-- The shape-dependent part of an element description (`App.tsx` 490-507). -/
def shapeDesc (el : SceneElement) : String :=
  if el.points.isSome then
    "a curved " ++ jsToLower el.subtype ++
      " following the exact path of the white guide line (" ++
      installTypeCurved el ++ ")"
  else if el.endX.isSome && el.endY.isSome then
    "a linear " ++ jsToLower el.subtype ++ " (" ++ installTypeLinear el ++
      ") installed strictly along the white guide line"
  else
    "a " ++ poseWord el ++ jsToLower el.subtype ++ " placed " ++
      getPositionDescription el.x el.y

/-- The Kelvin clause (`App.tsx` 510-512); JS truthiness makes temperature 0
produce no clause. -/
def tempClause (el : SceneElement) : String :=
  if el.type = .lighting then
    match el.colorTemperature with
    | some t => if t = 0 then "" else
        " (Light Color Temperature strictly: " ++ toString t ++ " Kelvin)"
    | none => ""
  else ""

/-- The reference-image clause (`App.tsx` 514-517) with the assigned 1-based
ordinal, or empty when the element carries no reference image. -/
def refClause (el : SceneElement) (refIdx : Option ℕ) : String :=
  match refIdx with
  | some k => " (Use the provided reference image #" ++ toString k ++
      " for the visual style, color, and details of this " ++ el.subtype ++ ")"
  | none => ""

/-- One element description as built inside the `map` of `App.tsx` 490-520. -/
def elementDesc (el : SceneElement) (refIdx : Option ℕ) : String :=
  shapeDesc el ++ tempClause el ++ refClause el refIdx

/-- The description list with the mutable `refImageIndex` counter of
`App.tsx` 489-520: each reference-bearing element increments the counter and
receives its value as ordinal. -/
def descriptionsAux : List SceneElement → ℕ → List String
  | [], _ => []
  | el :: rest, c =>
      if el.referenceImage.isSome then
        elementDesc el (some (c + 1)) :: descriptionsAux rest (c + 1)
      else
        elementDesc el none :: descriptionsAux rest c

/-- The element descriptions of the prompt, counter starting at 0. -/
def descriptions (els : List SceneElement) : List String := descriptionsAux els 0

/-- The list `elementsWithRefs` of `handleGenerate` (`App.tsx` 696). -/
def elementsWithRefs (els : List SceneElement) : List SceneElement :=
  els.filter fun el => el.referenceImage.isSome

/-- The list `referenceImagesBase64` of `handleGenerate` (`App.tsx` 697): the ordered
outbound reference-image payload list. -/
def referenceImagesBase64 (els : List SceneElement) : List String :=
  (elementsWithRefs els).map fun el => extractBase64Data (el.referenceImage.getD "")

/-- Number of reference-bearing elements in a list. -/
def nRefs (els : List SceneElement) : ℕ := (elementsWithRefs els).length

/-- The flag `hasLinearLights` of `handleGenerate` (`App.tsx` 699-701) and
`isLinearType` of `processImageWithGuides` (`App.tsx` 585): decided purely by
the free-text label. -/
def isLinearSubtype (s : String) : Bool := s == "LED Strip" || s == "LED Profile"

/-- Whether any element makes the pipeline run the guide compositor. -/
def hasLinearLights (els : List SceneElement) : Bool :=
  els.any fun el => isLinearSubtype el.subtype

/-- The flag `hasLed` of `constructFullPrompt` (`App.tsx` 523): some label contains
the substring LED. -/
def hasLed (els : List SceneElement) : Bool :=
  els.any fun el => jsIncludes el.subtype "LED"

/-- The hard safety clause appended when `hasLed` holds (`App.tsx` 525). -/
def safetyClause : String :=
  "CRITICAL INSTRUCTION: The input image has been digitally annotated with bright WHITE LINES. These lines MARK THE EXACT POSITION of the LED profiles. You must transform these specific white lines into photorealistic LED light fixtures. DO NOT create new lights where there are no white lines. The white lines are the only source of new lighting."

/-- The global settings read by `constructFullPrompt`. -/
structure PromptConfig where
  prompt : String
  mood : Mood
  profLighting : Bool
  profLandscaping : Bool
  preserveLighting : Bool
  preserveView : Bool
  preserveBranding : Bool
  customPreservation : String
  mode : GenerationMode
deriving DecidableEq, Repr

/-- The `enhancements` array of `constructFullPrompt` (`App.tsx` 459-532),
pushed in source order. -/
def buildEnhancements (cfg : PromptConfig) (els : List SceneElement) : List String :=
  (if cfg.mood = .original then
    ["Maintain original lighting, atmosphere, time of day and color grading of the source image"]
   else ["Atmosphere: " ++ cfg.mood.text]) ++
  (if cfg.profLighting then
    ["Professional cinematic lighting, global illumination"] else []) ++
  (if cfg.profLandscaping then
    ["Professional landscape architecture, lush vegetation"] else []) ++
  (if cfg.preserveLighting then
    ["Strictly preserve the original quantity, position, and style of all existing light fixtures, lamps, and chandeliers. Do not add or remove lighting fixtures"]
   else []) ++
  (if cfg.preserveView then
    ["Keep the original external landscape views seen through windows and doors exactly as they appear in the source image. Do not alter the outside scenery"]
   else []) ++
  (if cfg.preserveBranding then
    ["Strictly preserve all original signage, text, logos, branding, and street signs visible in the image. Do not distort text or logos"]
   else []) ++
  (if jsTrim cfg.customPreservation ≠ "" then
    ["Do not alter the following characteristics: " ++ jsTrim cfg.customPreservation]
   else []) ++
  (if els.isEmpty then [] else
    ("Include exactly: " ++ String.intercalate ", " (descriptions els)) ::
      (if hasLed els then [safetyClause] else [])) ++
  (if cfg.mode = .video then
    ["Cinematic camera movement, high quality architectural animation"] else [])

/-- The synthesizer `constructFullPrompt` (`App.tsx` 453-535): default filler for a blank
base prompt, then the joined enhancement clauses and the quality suffix. -/
def constructFullPrompt (cfg : PromptConfig) (els : List SceneElement) : String :=
  let finalPrompt := if jsTrim cfg.prompt = "" then "Architectural scene" else jsTrim cfg.prompt
  finalPrompt ++ ". " ++ String.intercalate ". " (buildEnhancements cfg els) ++
    ". High quality, photorealistic, 8k."

lemma nRefs_cons (a : SceneElement) (l : List SceneElement) :
    nRefs (a :: l) = (if a.referenceImage.isSome then 1 else 0) + nRefs l := by
  unfold nRefs elementsWithRefs
  rw [List.filter_cons]
  split
  · simp only [List.length_cons]
    omega
  · omega

lemma refBytes_cons_pos {a : SceneElement} (l : List SceneElement)
    (h : a.referenceImage.isSome = true) :
    referenceImagesBase64 (a :: l) =
      extractBase64Data (a.referenceImage.getD "") :: referenceImagesBase64 l := by
  simp [referenceImagesBase64, elementsWithRefs, List.filter_cons, h]

lemma refBytes_cons_neg {a : SceneElement} (l : List SceneElement)
    (h : ¬a.referenceImage.isSome = true) :
    referenceImagesBase64 (a :: l) = referenceImagesBase64 l := by
  simp [referenceImagesBase64, elementsWithRefs, List.filter_cons, h]

lemma descriptionsAux_ordinal :
    ∀ (els : List SceneElement) (c i : ℕ) (el : SceneElement),
      els.get? i = some el → el.referenceImage.isSome = true →
      (descriptionsAux els c).get? i =
        some (elementDesc el (some (c + nRefs (els.take i) + 1))) ∧
      (referenceImagesBase64 els).get? (nRefs (els.take i)) =
        some (extractBase64Data (el.referenceImage.getD "")) := by
  intro els
  induction els with
  | nil => intro c i el h _; simp at h
  | cons hd tl ih =>
      intro c i el h href
      cases i with
      | zero =>
          obtain rfl : hd = el := by simpa using h
          constructor
          · simp [descriptionsAux, href, nRefs, elementsWithRefs]
          · rw [List.take_zero]
            rw [refBytes_cons_pos tl href]
            simp [nRefs, elementsWithRefs]
      | succ n =>
          have h' : tl.get? n = some el := by simpa using h
          have hcount : nRefs ((hd :: tl).take (n + 1)) =
              (if hd.referenceImage.isSome then 1 else 0) + nRefs (tl.take n) := by
            rw [List.take_succ_cons, nRefs_cons]
          by_cases hh : hd.referenceImage.isSome
          · obtain ⟨ih1, ih2⟩ := ih (c + 1) n el h' href
            constructor
            · simp only [descriptionsAux]
              rw [if_pos hh, List.get?_cons_succ, ih1, hcount, if_pos hh]
              congr 3
              omega
            · rw [refBytes_cons_pos tl hh, hcount, if_pos hh]
              rw [Nat.add_comm 1 (nRefs (tl.take n)), List.get?_cons_succ]
              exact ih2
          · obtain ⟨ih1, ih2⟩ := ih c n el h' href
            constructor
            · simp only [descriptionsAux]
              rw [if_neg hh, List.get?_cons_succ, ih1, hcount, if_neg hh, Nat.zero_add]
            · rw [refBytes_cons_neg tl hh, hcount, if_neg hh, Nat.zero_add]
              exact ih2

/-- C5: for any element list, the element at array position i that is a
reference-bearing element receives, with N := (number of reference-bearing
elements strictly before it) + 1, exactly the prompt ordinal N in its
description, and its image payload sits at 1-based position N (0-based N-1)
of the outbound reference list `referenceImagesBase64` — the prompt ordinals
and the byte order always agree. -/
theorem c5_referenceOrdinal (els : List SceneElement) (i : ℕ) (el : SceneElement)
    (h : els.get? i = some el) (href : el.referenceImage.isSome = true) :
    (descriptions els).get? i =
      some (elementDesc el (some (nRefs (els.take i) + 1))) ∧
    (referenceImagesBase64 els).get? (nRefs (els.take i)) =
      some (extractBase64Data (el.referenceImage.getD "")) := by
  have := descriptionsAux_ordinal els 0 i el h href
  rwa [Nat.zero_add] at this

/-- Witness for C5: in a 4-element list whose reference-bearing elements sit
at positions 1 and 3, the element at position 3 is the 2nd reference-bearing
one, its description carries ordinal 2 and its bytes sit at 0-based
position 1. -/
theorem c5_referenceOrdinal_witness :
    (descriptions [demoElement,
        { demoElement with id := "r1", referenceImage := some "data:image/png;base64,AAA" },
        { demoElement with id := "p2" },
        { demoElement with id := "r2", referenceImage := some "data:image/png;base64,BBB" }]).get? 3 =
      some (elementDesc
        { demoElement with id := "r2", referenceImage := some "data:image/png;base64,BBB" }
        (some 2)) ∧
    (referenceImagesBase64 [demoElement,
        { demoElement with id := "r1", referenceImage := some "data:image/png;base64,AAA" },
        { demoElement with id := "p2" },
        { demoElement with id := "r2", referenceImage := some "data:image/png;base64,BBB" }]).get? 1 =
      some (extractBase64Data "data:image/png;base64,BBB") :=
  c5_referenceOrdinal _ 3 _ rfl rfl

/-! Retry policy (`retryWithBackoff`, second service module in the bundle,
`App.tsx` lines 1366-1392). -/

/-- A JavaScript error value as inspected by `retryWithBackoff`. -/
structure JsError where
  status : Option ℕ := none
  code : Option ℕ := none
  message : Option String := none
deriving DecidableEq, Repr

/-- The transient-overload classifier of `retryWithBackoff` (lines 1377-1380):
status 503, code 503, or a message containing 503 / overloaded / UNAVAILABLE.
Status 429 is NOT checked, although the adjacent source comment says it is. -/
def isOverloaded (e : JsError) : Bool :=
  e.status == some 503 || e.code == some 503 ||
    (match e.message with
     | some m => jsIncludes m "503" || jsIncludes m "overloaded" ||
         jsIncludes m "UNAVAILABLE"
     | none => false)

/-- The combinator `retryWithBackoff` (lines 1367-1392): run the operation; on an overloaded
error with retries left, wait `delay` and recurse with the delay doubled;
otherwise propagate the error.  The operation is modelled as a function of the
attempt number; the returned list records the waits performed, in order. -/
def retryWithBackoff (op : ℕ → Except JsError α) :
    ℕ → ℕ → ℕ → Except JsError α × List ℕ
  | retries, delay, attempt =>
    match op attempt with
    | .ok v => (.ok v, [])
    | .error e =>
        match retries, isOverloaded e with
        | r + 1, true =>
            let res := retryWithBackoff op r (delay * 2) (attempt + 1)
            (res.1, delay :: res.2)
        | _, _ => (.error e, [])

/-- The 429 error of the claim: a rate-limit failure whose message does not
happen to contain one of the matched substrings. -/
def rateLimitError : JsError :=
  { status := some 429, message := some "Too Many Requests" }

/-- A 503 overload error. -/
def overloadError : JsError := { status := some 503, message := some "overloaded" }

/-- An operation that fails with 503 on the first two attempts, then succeeds. -/
def failTwiceThenOk : ℕ → Except JsError ℕ := fun attempt =>
  if attempt < 2 then .error overloadError else .ok 77

/-- C6: the code violates the 429 half of the claim.  A 503 that fails twice
then succeeds is indeed retried with doubled delays and returns the success
result (second conjunct, matching the claim), and non-overload errors
propagate immediately — but an HTTP 429 error is classified as
non-transient and propagates with zero retries and zero waits, although the
claim, like the comment inside the source, says 429 is retried. -/
theorem c6_retryPolicy :
    isOverloaded rateLimitError = false ∧
    retryWithBackoff (fun _ => (.error rateLimitError : Except JsError ℕ)) 5 2000 0 =
      (.error rateLimitError, []) ∧
    retryWithBackoff failTwiceThenOk 5 2000 0 = (.ok 77, [2000, 4000]) ∧
    retryWithBackoff (fun _ => (.error { status := some 400 } : Except JsError ℕ)) 5 2000 0 =
      (.error { status := some 400 }, []) := by
  exact ⟨by decide, rfl, rfl, rfl⟩

/-! Generation orchestrator (`handleGenerate`, `App.tsx` lines 658-765). -/

/-- Job status, from `types.ts` (`RenderResult.status`). -/
inductive JobStatus where
  | pending | completed | failed
deriving DecidableEq, Repr

/-- A render-history record, from `types.ts` (`RenderResult`). -/
structure RenderResult where
  id : String
  url : Option String
  type : GenerationMode
  timestamp : ℕ
  thumbnail : Option String
  status : JobStatus
deriving DecidableEq, Repr

/-- The orchestrator-visible React state of `App.tsx`. -/
structure GenState where
  renderHistory : List RenderResult
  activeRenderId : Option String
  globalError : Option String
deriving DecidableEq, Repr

/-- The synchronous head of `handleGenerate` (lines 664-691): clear the
global error, insert an optimistic pending record at the head of history,
and auto-focus it. -/
def submitJob (s : GenState) (tempId : String) (mode : GenerationMode)
    (now : ℕ) (thumb : Option String) : GenState :=
  { s with
    globalError := none,
    renderHistory :=
      { id := tempId, url := none, type := mode, timestamp := now,
        thumbnail := thumb, status := .pending } :: s.renderHistory,
    activeRenderId := some tempId }

/-- The catch block of `handleGenerate` (lines 748-758): mark the matching
record failed, and set the global error only when `captured = some tempId`.
`captured` is the value of the `activeRenderId` binding the async closure
read — in the JS source this is the React state captured when
`handleGenerate` was invoked, BEFORE `setActiveRenderId(tempId)` took
effect, not the live state at failure time. -/
def markFailed (captured : Option String) (tempId msg : String)
    (s : GenState) : GenState :=
  { s with
    renderHistory := s.renderHistory.map fun it =>
      if it.id = tempId then { it with status := .failed } else it,
    globalError := if captured = some tempId then some msg else s.globalError }

/-- A full failed generation with no intervening user action: submit, then
the async failure handler runs with the stale captured `activeRenderId`. -/
def generateFail (s0 : GenState) (tempId msg : String) (mode : GenerationMode)
    (now : ℕ) (thumb : Option String) : GenState :=
  markFailed s0.activeRenderId tempId msg (submitJob s0 tempId mode now thumb)

/-- C7, evaluated against the code: submission auto-focuses the new job, so
at the moment of failure the user is still viewing it, and the failure marks
the record failed — but whenever the pre-submit `activeRenderId` differs from
the fresh job id (always, since ids are fresh), NO global error is surfaced,
because the catch block compares the stale captured `activeRenderId` against
the new id.  This contradicts the claim, and the comment in the source, that
the error is surfaced when the failed job is still the one being viewed. -/
theorem c7_staleFailureError :
    (∀ (s0 : GenState) (tempId : String) (mode : GenerationMode) (now : ℕ)
      (thumb : Option String),
      (submitJob s0 tempId mode now thumb).activeRenderId = some tempId) ∧
    (∀ (s0 : GenState) (tempId msg : String) (mode : GenerationMode) (now : ℕ)
      (thumb : Option String),
      ∀ it ∈ (generateFail s0 tempId msg mode now thumb).renderHistory,
        it.id = tempId → it.status = .failed) ∧
    (∀ (s0 : GenState) (tempId msg : String) (mode : GenerationMode) (now : ℕ)
      (thumb : Option String),
      s0.activeRenderId ≠ some tempId →
      (generateFail s0 tempId msg mode now thumb).globalError = none) := by
  refine ⟨fun _ _ _ _ _ => rfl, ?_, ?_⟩
  · intro s0 tempId msg mode now thumb it hit hid
    simp only [generateFail, markFailed, submitJob, List.mem_map, List.mem_cons] at hit
    obtain ⟨a, _, rfl⟩ := hit
    by_cases h : a.id = tempId
    · simp [h]
    · rw [if_neg h]
      rw [if_neg h] at hid
      exact absurd hid h
  · intro s0 tempId msg mode now thumb hne
    simp [generateFail, markFailed, submitJob, hne]

/-- Witness for C7 from the empty initial state: the user views the failed
job, its record is failed, yet the global error stays empty. -/
theorem c7_staleFailureError_witness :
    (submitJob ⟨[], none, none⟩ "1000" .image 0 none).activeRenderId = some "1000" ∧
    (∀ it ∈ (generateFail ⟨[], none, none⟩ "1000" "boom" .image 0 none).renderHistory,
      it.id = "1000" → it.status = .failed) ∧
    (generateFail ⟨[], none, none⟩ "1000" "boom" .image 0 none).globalError = none :=
  ⟨c7_staleFailureError.1 ⟨[], none, none⟩ "1000" .image 0 none,
   c7_staleFailureError.2.1 ⟨[], none, none⟩ "1000" "boom" .image 0 none,
   c7_staleFailureError.2.2 ⟨[], none, none⟩ "1000" "boom" .image 0 none (by decide)⟩

/-! Guide compositor (`processImageWithGuides`, `App.tsx` lines 566-656). -/

/-- The canvas stroke settings used for one `drawPath` call. -/
structure StrokeStyle where
  shadowBlur : ℕ
  opacity : ℚ
  lineWidth : ℚ
deriving DecidableEq, Repr

/-- The glow stroke (`App.tsx` 631-636): blur 40 when backlit else 25,
half-transparent white, width `max(6, canvas.width * 0.015)`. -/
def glowStroke (isBacklit : Bool) (canvasWidth : ℚ) : StrokeStyle :=
  { shadowBlur := if isBacklit then 40 else 25,
    opacity := 1 / 2,
    lineWidth := max 6 (canvasWidth * (15 / 1000)) }

/-- The core stroke (`App.tsx` 638-642): no blur, fully opaque white, width
`max(3, canvas.width * 0.006)` — independent of the install side. -/
def coreStroke (canvasWidth : ℚ) : StrokeStyle :=
  { shadowBlur := 0,
    opacity := 1,
    lineWidth := max 3 (canvasWidth * (6 / 1000)) }

/-- The two strokes `processImageWithGuides` draws for a linear-lighting
element, in draw order; non-linear elements get none (`App.tsx` 584-645). -/
def guideStrokes (el : SceneElement) (canvasWidth : ℚ) : List StrokeStyle :=
  if isLinearSubtype el.subtype then
    [glowStroke (el.lightingPosition == some .back) canvasWidth,
     coreStroke canvasWidth]
  else []

/-- One compositing draw operation. -/
inductive DrawOp where
  | drawImage
  | stroke (el : SceneElement) (style : StrokeStyle)
deriving DecidableEq, Repr

/-- The draw-operation sequence of `processImageWithGuides`: the source image
unmodified first (line 582), then per element its guide strokes in order. -/
def processImageWithGuides (els : List SceneElement) (canvasWidth : ℚ) :
    List DrawOp :=
  DrawOp.drawImage :: els.flatMap fun el =>
    (guideStrokes el canvasWidth).map (DrawOp.stroke el)

/-- A backlit LED strip element. -/
def backLed : SceneElement :=
  { id := "L1", type := .lighting, subtype := "LED Strip", x := 0, y := 0,
    endX := some 50, endY := some 50, lightingPosition := some .back }

/-- The same element installed on the front side. -/
def frontLed : SceneElement := { backLed with id := "L2", lightingPosition := some .front }

/-- C8 counterexample: on a 1000-pixel-wide canvas the stroke WIDTHS for a
back-installed linear element equal those of a front-installed one (the glow
is not wider when installSide = back), and the opacities also coincide — in
particular the core stroke is identical and fully opaque (opacity 1, blur 0)
for the back install, not softer or opacity-reduced. -/
theorem c8_guideStrokes_counterexample :
    (guideStrokes backLed 1000).map StrokeStyle.lineWidth =
      (guideStrokes frontLed 1000).map StrokeStyle.lineWidth ∧
    (guideStrokes backLed 1000).map StrokeStyle.opacity =
      (guideStrokes frontLed 1000).map StrokeStyle.opacity ∧
    (guideStrokes backLed 1000).get? 1 = some ⟨0, 1, 6⟩ := by
  refine ⟨rfl, rfl, ?_⟩
  norm_num [guideStrokes, coreStroke, backLed, isLinearSubtype, max_def]

/-- C8 (amended): the compositor draws the source image unmodified first;
every linear-lighting element then gets exactly two strokes, a wide,
half-transparent glow stroke first — more blurred when installSide = back
(blur 40 against 25) but of the same width — followed by a strictly narrower,
fully-opaque, blur-free core stroke that is identical regardless of the
install side; non-linear elements get no strokes. -/
theorem c8_guideCompositor_amended :
    (∀ (els : List SceneElement) (w : ℚ),
      (processImageWithGuides els w).head? = some DrawOp.drawImage) ∧
    (∀ (el : SceneElement) (w : ℚ), isLinearSubtype el.subtype = true →
      ∃ glow core : StrokeStyle,
        guideStrokes el w = [glow, core] ∧
        glow.opacity = 1 / 2 ∧
        glow.shadowBlur = (if el.lightingPosition == some .back then 40 else 25) ∧
        core = coreStroke w ∧
        core.opacity = 1 ∧ core.shadowBlur = 0 ∧
        core.lineWidth < glow.lineWidth ∧
        glow.lineWidth = max 6 (w * (15 / 1000))) ∧
    (∀ (el : SceneElement) (w : ℚ), isLinearSubtype el.subtype = false →
      guideStrokes el w = []) := by
  refine ⟨fun _ _ => rfl, ?_, ?_⟩
  · intro el w hlin
    refine ⟨glowStroke (el.lightingPosition == some .back) w, coreStroke w,
      by simp [guideStrokes, hlin], rfl, rfl, rfl, rfl, rfl, ?_, rfl⟩
    show max 3 (w * (6 / 1000)) < max 6 (w * (15 / 1000))
    rcases le_or_lt w 500 with hw | hw
    · have h1 : w * (6 / 1000) ≤ 3 := by nlinarith
      have h2 : max 3 (w * (6 / 1000)) = 3 := max_eq_left h1
      rw [h2]
      exact lt_max_of_lt_left (by norm_num)
    · have h1 : w * (6 / 1000) < w * (15 / 1000) := by nlinarith
      have h3 : (3 : ℚ) < max 6 (w * (15 / 1000)) := lt_max_of_lt_left (by norm_num)
      have h4 : w * (6 / 1000) < max 6 (w * (15 / 1000)) :=
        lt_max_of_lt_right h1
      exact max_lt h3 h4
  · intro el w hlin
    simp [guideStrokes, hlin]

/-- Witness for C8 (amended) on the concrete backlit element. -/
theorem c8_guideCompositor_witness :
    ∃ glow core : StrokeStyle,
      guideStrokes backLed 1000 = [glow, core] ∧
      glow.opacity = 1 / 2 ∧
      glow.shadowBlur = (if backLed.lightingPosition == some .back then 40 else 25) ∧
      core = coreStroke 1000 ∧
      core.opacity = 1 ∧ core.shadowBlur = 0 ∧
      core.lineWidth < glow.lineWidth ∧
      glow.lineWidth = max 6 (1000 * (15 / 1000)) :=
  c8_guideCompositor_amended.2.1 backLed 1000 (by decide)

/-! The C9 prompt scenario. -/

/-- The all-default settings of the scenario: blank base prompt, Original
mood, every toggle off, image mode. -/
def lampConfig : PromptConfig :=
  { prompt := "", mood := .original, profLighting := false, profLandscaping := false,
    preserveLighting := false, preserveView := false, preserveBranding := false,
    customPreservation := "", mode := .image }

/-- One lighting point element labeled lamp at (20,20), temperature 4000. -/
def lampElement : SceneElement :=
  { id := "lamp1", type := .lighting, subtype := "lamp", x := 20, y := 20,
    colorTemperature := some 4000, lightingPosition := some .front }

/-- C9: for the blank base prompt with one lighting point element labeled
lamp at (20,20) and temperature 4000, the synthesized prompt is exactly the
default filler, the Original-mood clause, then the substring
`Include exactly: a lamp placed top left area (Light Color Temperature
strictly: 4000 Kelvin)`, then the quality suffix — in particular it contains
that exact substring and the blank base description is replaced by the
default filler. -/
theorem c9_promptScenario :
    constructFullPrompt lampConfig [lampElement] =
      "Architectural scene. Maintain original lighting, atmosphere, time of day and color grading of the source image. " ++
        "Include exactly: a lamp placed top left area (Light Color Temperature strictly: 4000 Kelvin)" ++
        ". High quality, photorealistic, 8k." := by
  rfl

/-! C10: label-driven linear-light detection. -/

/-- The image actually sent by `handleGenerate` (lines 706-715): the
composited guide image when `hasLinearLights`, otherwise the original bytes. -/
def chooseInputImage (els : List SceneElement) (guided original : String) : String :=
  if hasLinearLights els then guided else original

/-- The handler `handleUpdateElementDescription` (`App.tsx` 404-410): rename the matching
element label, rejecting blank labels. -/
def handleUpdateElementDescription (els : List SceneElement)
    (id newDescription : String) : List SceneElement :=
  if jsTrim newDescription = "" then els
  else els.map fun el =>
    if el.id = id then { el with subtype := newDescription } else el

/-- A lighting point element labeled Sconce. -/
def sconceElement : SceneElement :=
  { id := "s1", type := .lighting, subtype := "Sconce", x := 30, y := 40,
    colorTemperature := some 3000, lightingPosition := some .front }

lemma safety_ne_atmosphere (t : String) : safetyClause ≠ "Atmosphere: " ++ t := by
  intro h
  have h2 : (some 'C' : Option Char) = some 'A' :=
    congrArg (fun s : String => s.data.head?) h
  exact absurd h2 (by decide)

lemma safety_ne_custom (t : String) :
    safetyClause ≠ "Do not alter the following characteristics: " ++ t := by
  intro h
  have h2 : (some 'C' : Option Char) = some 'D' :=
    congrArg (fun s : String => s.data.head?) h
  exact absurd h2 (by decide)

lemma safety_ne_include (t : String) : safetyClause ≠ "Include exactly: " ++ t := by
  intro h
  have h2 : (some 'C' : Option Char) = some 'I' :=
    congrArg (fun s : String => s.data.head?) h
  exact absurd h2 (by decide)

lemma hasLed_isEmpty_false {els : List SceneElement} (h : hasLed els = true) :
    els.isEmpty = false := by
  cases els with
  | nil => simp [hasLed] at h
  | cons a l => rfl

lemma safety_not_mem_of_hasLed_false (cfg : PromptConfig) (els : List SceneElement)
    (hled : hasLed els = false) : safetyClause ∉ buildEnhancements cfg els := by
  intro hmem
  unfold buildEnhancements at hmem
  rcases List.mem_append.mp hmem with hmem | h
  case inr =>
    by_cases hc : cfg.mode = GenerationMode.video
    · rw [if_pos hc] at h
      exact absurd (List.mem_singleton.mp h) (by decide)
    · rw [if_neg hc] at h
      exact absurd h (List.not_mem_nil _)
  rcases List.mem_append.mp hmem with hmem | h
  case inr =>
    by_cases hc : els.isEmpty = true
    · rw [if_pos hc] at h
      exact absurd h (List.not_mem_nil _)
    · rw [if_neg hc] at h
      rcases List.mem_cons.mp h with h' | h'
      · exact safety_ne_include _ h'
      · rw [hled] at h'
        simp at h'
  rcases List.mem_append.mp hmem with hmem | h
  case inr =>
    by_cases hc : jsTrim cfg.customPreservation ≠ ""
    · rw [if_pos hc] at h
      exact safety_ne_custom _ (List.mem_singleton.mp h)
    · rw [if_neg hc] at h
      exact absurd h (List.not_mem_nil _)
  rcases List.mem_append.mp hmem with hmem | h
  case inr =>
    by_cases hc : cfg.preserveBranding = true
    · rw [if_pos hc] at h
      exact absurd (List.mem_singleton.mp h) (by decide)
    · rw [if_neg hc] at h
      exact absurd h (List.not_mem_nil _)
  rcases List.mem_append.mp hmem with hmem | h
  case inr =>
    by_cases hc : cfg.preserveView = true
    · rw [if_pos hc] at h
      exact absurd (List.mem_singleton.mp h) (by decide)
    · rw [if_neg hc] at h
      exact absurd h (List.not_mem_nil _)
  rcases List.mem_append.mp hmem with hmem | h
  case inr =>
    by_cases hc : cfg.preserveLighting = true
    · rw [if_pos hc] at h
      exact absurd (List.mem_singleton.mp h) (by decide)
    · rw [if_neg hc] at h
      exact absurd h (List.not_mem_nil _)
  rcases List.mem_append.mp hmem with hmem | h
  case inr =>
    by_cases hc : cfg.profLandscaping = true
    · rw [if_pos hc] at h
      exact absurd (List.mem_singleton.mp h) (by decide)
    · rw [if_neg hc] at h
      exact absurd h (List.not_mem_nil _)
  rcases List.mem_append.mp hmem with h | h
  case inr =>
    by_cases hc : cfg.profLighting = true
    · rw [if_pos hc] at h
      exact absurd (List.mem_singleton.mp h) (by decide)
    · rw [if_neg hc] at h
      exact absurd h (List.not_mem_nil _)
  case inl =>
    by_cases hc : cfg.mood = Mood.original
    · rw [if_pos hc] at h
      exact absurd (List.mem_singleton.mp h) (by decide)
    · rw [if_neg hc] at h
      exact safety_ne_atmosphere _ (List.mem_singleton.mp h)

lemma safety_mem_iff (cfg : PromptConfig) (els : List SceneElement) :
    safetyClause ∈ buildEnhancements cfg els ↔ hasLed els = true := by
  constructor
  · intro hmem
    by_contra hled
    rw [Bool.not_eq_true] at hled
    exact safety_not_mem_of_hasLed_false cfg els hled hmem
  · intro hled
    unfold buildEnhancements
    have hne : els.isEmpty = false := hasLed_isEmpty_false hled
    simp [hled, hne, List.mem_append]

/-- C10: whether an element is treated as a linear light fixture is decided
solely by its free-text label: the compositor runs (and the guided image is
chosen) iff some element label is exactly LED Strip or LED Profile,
otherwise the original bytes are forwarded; the hard safety clause is in the
prompt enhancement list iff some element label contains the substring
LED; both decisions are invariant under changing anything but the labels;
and renaming the label of a single element flips both decisions without touching
its kind or coordinates. -/
theorem c10_labelDriven :
    (∀ els : List SceneElement, hasLinearLights els = true ↔
      ∃ el ∈ els, el.subtype = "LED Strip" ∨ el.subtype = "LED Profile") ∧
    (∀ els : List SceneElement, hasLed els = true ↔
      ∃ el ∈ els, jsIncludes el.subtype "LED" = true) ∧
    (∀ els els' : List SceneElement,
      els.map SceneElement.subtype = els'.map SceneElement.subtype →
      hasLinearLights els = hasLinearLights els' ∧ hasLed els = hasLed els') ∧
    (∀ (els : List SceneElement) (guided original : String),
      hasLinearLights els = false → chooseInputImage els guided original = original) ∧
    (∀ (cfg : PromptConfig) (els : List SceneElement),
      safetyClause ∈ buildEnhancements cfg els ↔ hasLed els = true) ∧
    (hasLinearLights [sconceElement] = false ∧ hasLed [sconceElement] = false ∧
      hasLinearLights (handleUpdateElementDescription [sconceElement] "s1" "LED Strip") = true ∧
      hasLed (handleUpdateElementDescription [sconceElement] "s1" "LED Strip") = true ∧
      (handleUpdateElementDescription [sconceElement] "s1" "LED Strip").map
        (fun el => (el.type, el.x, el.y)) = [(.lighting, 30, 40)]) := by
  have hmapLin : ∀ l : List SceneElement,
      hasLinearLights l = (l.map SceneElement.subtype).any isLinearSubtype := by
    intro l
    induction l with
    | nil => rfl
    | cons a t ih => simp [hasLinearLights, List.any_cons, isLinearSubtype] at ih ⊢; rw [ih]
  have hmapLed : ∀ l : List SceneElement,
      hasLed l = (l.map SceneElement.subtype).any (fun s => jsIncludes s "LED") := by
    intro l
    induction l with
    | nil => rfl
    | cons a t ih => simp [hasLed, List.any_cons] at ih ⊢; rw [ih]
  refine ⟨?_, ?_, ?_, ?_, safety_mem_iff, by decide, by decide, by decide, by decide, by decide⟩
  · intro els
    simp [hasLinearLights, isLinearSubtype, List.any_eq_true]
  · intro els
    simp [hasLed, List.any_eq_true]
  · intro els els' h
    rw [hmapLin, hmapLin, hmapLed, hmapLed, h]
    exact ⟨rfl, rfl⟩
  · intro els guided original h
    simp [chooseInputImage, h]

/-- Witness for C10: the singleton list with a backlit LED strip makes the
compositor run. -/
theorem c10_labelDriven_witness : hasLinearLights [backLed] = true :=
  (c10_labelDriven.1 [backLed]).mpr ⟨backLed, List.mem_singleton.mpr rfl, Or.inl rfl⟩

end PrismaRender
